import Mathlib

/-!
Verification development for `gift/pipelines/pipeline_utils.py`: a shallow
embedding of the layer sampler, scheduler, matching engine, interpolation
engine and replica state synchronization, with theorems settling the
specification claims about them.

Numeric values are modelled as rationals (`ℚ`); Python exceptions and the
implicit `None` return are modelled with `Except` / `Option`.  Randomness
(numpy/jax PRNG draws) is modelled by explicit oracle parameters: a drawn
permutation, a choice index, a beta-distribution sample function.
-/

/-- Errors surfaced by the pipeline utilities.  `configurationError` carries
the Python exception message; `emptyChoice` models numpy's
`ValueError: a cannot be empty` raised by `np.random.choice` on an empty
array; `assertionError` models a failed Python `assert`; `keyError` a missing
dict key; `zeroDivision` a Python `ZeroDivisionError`. -/
inductive PipelineError where
  | configurationError (msg : String)
  | shapeMismatch
  | emptyChoice
  | indexError
  | assertionError
  | keyError
  | zeroDivision
deriving DecidableEq

/-- `np.arange(a, b)` over integers: the list `a, a+1, …, b-1`
(empty when `a ≥ b`). -/
def arangeZ (a b : ℤ) : List ℤ :=
  (List.range (b - a).toNat).map (fun k => a + (k : ℤ))

/-- Python list indexing `keys[i]` on an `int` index: negative indices count
from the end, out-of-range raises `IndexError`. -/
def pyIndex (keys : List String) (i : ℤ) : Except PipelineError String :=
  let j : ℤ := if i < 0 then i + (keys.length : ℤ) else i
  if j < 0 then .error .indexError
  else
    match keys.get? j.toNat with
    | some s => .ok s
    | none => .error .indexError

/-- `layer_keys[int(np.random.choice(layers))]`: the random draw is modelled
by the oracle `choice`, reduced mod the eligible-list length; an empty
eligible list makes `np.random.choice` raise. -/
def pickFrom (keys : List String) (layers : List ℤ) (choice : ℕ) :
    Except PipelineError String :=
  match layers with
  | [] => .error .emptyChoice
  | l :: ls => pyIndex keys ((l :: ls).getD (choice % (l :: ls).length) 0)

/-- `sample_layer` from `pipeline_utils.py` (lines 710-738).  The source
computes, for `mixup_layer_range = (lo, hi)`:
`min_layer = np.maximum(hi, 0)` and `max_layer = np.minimum(lo, len(layer_keys))`
(note: the lower bound is taken from the range's second element and the upper
bound from its first, exactly as the source does), then
`layers = np.arange(min_layer, max_layer)`.  The initial guard models
`assert not (mixup_layer_range and mixup_layers)` with Python truthiness:
a pair is always truthy, a list is truthy iff non-empty. -/
def sample_layer (layer_keys : List String) (mixup_layer_range : Option (ℤ × ℤ))
    (mixup_layers : Option (List ℤ)) (choice : ℕ) : Except PipelineError String :=
  if mixup_layer_range.isSome &&
      (match mixup_layers with | some l => !l.isEmpty | none => false) then
    .error .assertionError
  else
    match mixup_layer_range with
    | some r =>
        let max_mixup_layer := r.2
        let min_mixup_layer := r.1
        let min_layer : ℤ := max max_mixup_layer 0
        let max_layer : ℤ := min min_mixup_layer (layer_keys.length : ℤ)
        pickFrom layer_keys (arangeZ min_layer max_layer) choice
    | none =>
        match mixup_layers with
        | some ls => pickFrom layer_keys ls choice
        | none =>
            .error (.configurationError
              "One of mixup_layer_range and mixup_layers should be set.")

/-- The scheduling-parameter dict consumed by `scheduler`.  Optional fields
model `params.get(...)`; the claims only exercise configurations in which the
unconditionally-indexed keys (`mode`, `initial_value`, `total_steps`) are
present, so those are plain fields. -/
structure SchedParams where
  mode : String
  initial_value : ℚ
  min_value : Option ℚ
  max_value : Option ℚ
  num_steps : Option ℕ
  total_steps : ℚ

/-- `scheduler` from `pipeline_utils.py` (lines 741-792).  A result of
`.ok none` models Python falling off the end of the function and returning
`None` (there is no `else` branch raising on an unknown mode).  Python's
float floor-division `step // step_size` is `⌊step / step_size⌋`; dividing by
zero (either `num_steps = 0` at the `step_size` line or `step_size = 0` at
the `value` line) raises `ZeroDivisionError`, and reading `params['min_value']`
(resp. `'max_value'`) when absent raises `KeyError`. -/
def scheduler (step : ℕ) (p : SchedParams) : Except PipelineError (Option ℚ) :=
  if p.mode = "constant" then
    .ok (some p.initial_value)
  else if p.mode = "linear_decay" then
    let ns := p.num_steps.getD 1
    if ns = 0 then .error .zeroDivision
    else
      let step_size : ℚ := p.total_steps / (ns : ℚ)
      match (if 1 < ns then
               p.min_value.map (fun mv => (p.initial_value - mv) / ((ns : ℚ) - 1))
             else some 0) with
      | none => .error .keyError
      | some decay_size =>
          if step_size = 0 then .error .zeroDivision
          else
            let value := p.initial_value - (⌊(step : ℚ) / step_size⌋ : ℚ) * decay_size
            .ok (some (match p.min_value with
                       | some mv => max mv value
                       | none => value))
  else if p.mode = "linear_grow" then
    let ns := p.num_steps.getD 1
    if ns = 0 then .error .zeroDivision
    else
      let step_size : ℚ := p.total_steps / (ns : ℚ)
      match (if 1 < ns then
               p.max_value.map (fun mx => (mx - p.initial_value) / ((ns : ℚ) - 1))
             else some 0) with
      | none => .error .keyError
      | some decay_size =>
          if step_size = 0 then .error .zeroDivision
          else
            let value := (⌊(step : ℚ) / step_size⌋ : ℚ) * decay_size
            .ok (some (match p.max_value with
                       | some mx => min mx value
                       | none => value))
  else
    .ok none

/-- Modelled from the spec: `domain_mapping_utils.pairwise_l2` (the module is
not under `src/`): the pairwise squared-Euclidean-distance cost matrix between
all example pairs of `x` and `y`. -/
def pairwise_l2 {n m d : ℕ} (x : Fin n → Fin d → ℚ) (y : Fin m → Fin d → ℚ) :
    Fin n → Fin m → ℚ :=
  fun i j => ∑ k, (x i k - y j k) ^ 2

/-- Modelled from the spec: `domain_mapping_utils.pairwise_equality_1d` (the
module is not under `src/`): the same-label indicator matrix, 1 where labels
match and 0 otherwise. -/
def pairwise_equality_1d {n m : ℕ} (a : Fin n → ℚ) (b : Fin m → ℚ) :
    Fin n → Fin m → ℚ :=
  fun i j => if a i = b j then 1 else 0

/-- `jnp.max` over a matrix.  The fold base 0 is only reached on an empty
matrix (where `jnp.max` raises); on the entrywise-nonnegative squared-distance
cost matrices this function is applied to, it agrees with the maximum entry. -/
def jnpMax {n m : ℕ} (M : Fin n → Fin m → ℚ) : ℚ :=
  ((List.finRange n).map (fun i => ((List.finRange m).map (fun j => M i j)).foldr max 0)).foldr max 0

/-- The cost-matrix construction of the `sinkhorn` branch of
`get_self_matching_matrix` (lines 626-644): squared-Euclidean pairwise cost
with 10× its maximum added on the diagonal (`cost += jnp.eye(n) * jnp.max(cost) * 10`),
then `adjusted_cost = (1 - same_labels) * label_cost + l2_cost * cost`.
In the source `x = y = reps` (flattened to 2-D) and
`x_labels = y_labels = batch['label']`. -/
def adjustedCost {n d : ℕ} (reps : Fin n → Fin d → ℚ) (labels : Fin n → ℚ)
    (label_cost l2_cost : ℚ) : Fin n → Fin n → ℚ :=
  let cost := pairwise_l2 reps reps
  let cost2 := fun i j => cost i j + (if i = j then (1 : ℚ) else 0) * jnpMax cost * 10
  let same_labels := pairwise_equality_1d labels labels
  fun i j => (1 - same_labels i j) * label_cost + l2_cost * cost2 i j

/-- `get_self_matching_matrix` from `pipeline_utils.py` (lines 599-654).
`perm` is the permutation drawn by `jax.random.permutation` in the `random`
branch (which permutes the rows of `jnp.eye(n)`); `sinkhornSolver` models
`domain_mapping_utils.sinkhorn_dual_solver` applied with all-ones marginals,
`epsilon = 0.1`, `num_iters = 100`, and `roundCoupling` models
`domain_mapping_utils.round_coupling` with all-ones marginals — both external
to `src/`, taken as oracle parameters since the claims only constrain the
cost fed into them.  Any other mode raises
`ValueError('%s mode for self matching alignment is not supported.' % mode)`. -/
def get_self_matching_matrix {n d : ℕ} (labels : Fin n → ℚ)
    (reps : Fin n → Fin d → ℚ) (mode : String) (label_cost l2_cost : ℚ)
    (perm : Equiv.Perm (Fin n))
    (sinkhornSolver roundCoupling : (Fin n → Fin n → ℚ) → (Fin n → Fin n → ℚ)) :
    Except PipelineError (Fin n → Fin n → ℚ) :=
  if mode = "random" then
    .ok (fun i j => if perm i = j then 1 else 0)
  else if mode = "sinkhorn" then
    .ok (roundCoupling (sinkhornSolver (adjustedCost reps labels label_cost l2_cost)))
  else
    .error (.configurationError
      (mode ++ " mode for self matching alignment is not supported."))

/-- A rank-2 jax array: leading example axis of size `n`, flattened feature
axis of size `d`.  `data` is a total function; entries outside the shape are
never consumed by the operations modelled here. -/
structure JArr where
  n : ℕ
  d : ℕ
  data : ℕ → ℕ → ℚ

/-- The pair returned by `interpolate`: the mixed representations (lambda
axis, example axis, feature axis) and the interpolation coefficients
(`num_lambdas × len(reps1)`). -/
structure InterpOut where
  mixed : ℕ → ℕ → ℕ → ℚ
  lambdas : ℕ → ℕ → ℚ

/-- The body of `interpolate` after the shape assertion (lines 689-707):
`reps2 = jnp.einsum('ij,j...->i...', matching_matrix, reps2)`;
`sample_lambdas = jax.lax.cond(lmbda != -1, λ_: ones((num_lambdas, len(reps1))) * lmbda, sample_beta)`
where `sample_beta` draws from Beta(alpha, beta), modelled by the oracle
`betaSample`; and (modelled from the spec, `tensor_util.convex_interpolate`
being outside `src/`) `mixed = (1 - lambda) * reps1 + lambda * reps2`
elementwise, broadcast per example. -/
def interpCore (matching : ℕ → ℕ → ℚ) (reps1 reps2 : JArr) (num_lambdas : ℕ)
    (alpha beta lmbda : ℚ) (betaSample : ℚ → ℚ → ℕ → ℕ → ℚ) : InterpOut :=
  let reps2m : ℕ → ℕ → ℚ :=
    fun i k => ∑ j ∈ Finset.range reps2.n, matching i j * reps2.data j k
  let lambdas : ℕ → ℕ → ℚ :=
    if lmbda ≠ -1 then (fun _ _ => 1 * lmbda) else (fun l i => betaSample alpha beta l i)
  { mixed := fun l i k => (1 - lambdas l i) * reps1.data i k + lambdas l i * reps2m i k
    lambdas := lambdas }

/-- `interpolate` from `pipeline_utils.py` (lines 657-707): first
`assert reps1.shape == reps2.shape` (its failure surfaces as the
shape-mismatch error), then the interpolation body. -/
def interpolate (matching : ℕ → ℕ → ℚ) (reps1 reps2 : JArr) (num_lambdas : ℕ)
    (alpha beta lmbda : ℚ) (betaSample : ℚ → ℚ → ℕ → ℕ → ℚ) :
    Except PipelineError InterpOut :=
  if reps1.n = reps2.n ∧ reps1.d = reps2.d then
    .ok (interpCore matching reps1 reps2 num_lambdas alpha beta lmbda betaSample)
  else
    .error .shapeMismatch

/-- `TrainState` (lines 41-61): the training-state bundle.  `optimizer` is an
opaque blob of parameters; `model_state` is the auxiliary state as a list of
named leaves, each leaf holding its per-replica values; `rng` is the 2-word
PRNG key. -/
structure TrainState where
  global_step : ℕ
  optimizer : List ℚ
  model_state : List (String × List ℚ)
  rng : ℕ × ℕ
deriving DecidableEq

/-- `jax.lax.pmean`: replace each replica's value by the mean across
replicas. -/
def pmean (xs : List ℚ) : List ℚ :=
  xs.map (fun _ => xs.sum / (xs.length : ℚ))

/-- `pmap_mean` (lines 96-98): `pmean` applied to every leaf of the model
state. -/
def pmap_mean (ms : List (String × List ℚ)) : List (String × List ℚ) :=
  ms.map (fun p => (p.1, pmean p.2))

/-- `sync_model_state_across_replicas` (lines 101-118): if
`jax.tree_leaves(train_state.model_state)` is non-empty, replace the model
state by its cross-replica mean; otherwise return the state unchanged. -/
def sync_model_state_across_replicas (train_state : TrainState) : TrainState :=
  if train_state.model_state ≠ [] then
    { train_state with model_state := pmap_mean train_state.model_state }
  else
    train_state

/-- Claim C1: the spec says `sample_layer(['l1','l2','l3'], mixup_layer_range=(0,2))`
resolves the eligible index set to `{0,1}` and returns `'l1'` or `'l2'`, never
an error.  The code instead takes its lower bound from the range's second
element and its upper bound from its first, producing `arange(max(2,0), min(0,3))
= arange(2,0) = []`, so `np.random.choice` raises on the empty eligible set —
for every possible random draw. -/
theorem C1_sample_layer_range_empty (choice : ℕ) :
    sample_layer ["l1", "l2", "l3"] (some (0, 2)) none choice =
      .error .emptyChoice := rfl

/-- Claim C2 counterexample: the claim says every unknown schedule mode makes
`scheduler` fail with a configuration error; in fact `"foo"` is not one of the
three known modes, yet `scheduler` falls off the end of the function and
returns Python `None` (`.ok none`), not an error. -/
theorem C2_unknown_mode_counterexample :
    ("foo" ≠ "constant" ∧ "foo" ≠ "linear_decay" ∧ "foo" ≠ "linear_grow") ∧
    scheduler 0 ⟨"foo", 0, none, none, none, 0⟩ = .ok none :=
  ⟨⟨by decide, by decide, by decide⟩, rfl⟩

/-- Claim C2 (amended): for every step and every params record whose mode is
none of `constant`, `linear_decay`, `linear_grow`, `scheduler` returns `None`
(it falls through without raising any error). -/
theorem C2_scheduler_unknown_mode_returns_none (step : ℕ) (p : SchedParams)
    (h1 : p.mode ≠ "constant") (h2 : p.mode ≠ "linear_decay")
    (h3 : p.mode ≠ "linear_grow") :
    scheduler step p = .ok none := by
  simp [scheduler, h1, h2, h3]

/-- Witness for the amended claim C2 at mode `"foo"`. -/
theorem C2_scheduler_unknown_mode_returns_none_witness :
    scheduler 3 ⟨"foo", 1, none, none, none, 10⟩ = .ok none :=
  C2_scheduler_unknown_mode_returns_none 3 _ (by decide) (by decide) (by decide)

/-- Claim C9: when the model state (auxiliary state) has no leaves,
`sync_model_state_across_replicas` returns the training state completely
unchanged. -/
theorem C9_sync_empty_model_state (s : TrainState) (h : s.model_state = []) :
    sync_model_state_across_replicas s = s := by
  simp [sync_model_state_across_replicas, h]

/-- Witness for claim C9 on a concrete state with empty model state. -/
theorem C9_sync_empty_model_state_witness :
    sync_model_state_across_replicas ⟨7, [1, 2], [], (0, 1)⟩ =
      ⟨7, [1, 2], [], (0, 1)⟩ :=
  C9_sync_empty_model_state _ rfl

/-- Claim C7: `interpolate` on representation tensors of different shapes
fails with the shape-mismatch error (the Python `assert`) and produces no
result. -/
theorem C7_interpolate_shape_mismatch (matching : ℕ → ℕ → ℚ)
    (reps1 reps2 : JArr) (nl : ℕ) (a b lm : ℚ) (bs : ℚ → ℚ → ℕ → ℕ → ℚ)
    (h : reps1.n ≠ reps2.n ∨ reps1.d ≠ reps2.d) :
    interpolate matching reps1 reps2 nl a b lm bs = .error .shapeMismatch := by
  have h' : ¬(reps1.n = reps2.n ∧ reps1.d = reps2.d) := by tauto
  simp [interpolate, h']

/-- Witness for claim C7: a 1×1 versus a 2×1 representation tensor. -/
theorem C7_interpolate_shape_mismatch_witness :
    interpolate (fun _ _ => 0) ⟨1, 1, fun _ _ => 0⟩ ⟨2, 1, fun _ _ => 0⟩
      1 1 1 (-1) (fun _ _ _ _ => 0) = .error .shapeMismatch :=
  C7_interpolate_shape_mismatch _ _ _ _ _ _ _ _ (Or.inl (by decide))

/-- Claim C10: the fixed-coefficient branch of `interpolate` is selected
exactly when `lmbda ≠ -1`: for any such `lmbda` (including values outside
`[0,1]`) every returned coefficient equals `lmbda` and the Beta oracle is not
consulted, while `lmbda = -1` always yields the Beta-distribution draw — so
`-1` can never act as a fixed interpolation coefficient. -/
theorem C10_interpolate_branch_selection (matching : ℕ → ℕ → ℚ)
    (reps1 reps2 : JArr) (nl : ℕ) (a b lm : ℚ) (bs : ℚ → ℚ → ℕ → ℕ → ℚ)
    (l i : ℕ) :
    (lm ≠ -1 →
      (interpCore matching reps1 reps2 nl a b lm bs).lambdas l i = lm) ∧
    (lm = -1 →
      (interpCore matching reps1 reps2 nl a b lm bs).lambdas l i = bs a b l i) := by
  constructor
  · intro h; simp [interpCore, h]
  · intro h; simp [interpCore, h]

/-- Witness for claim C10: with `lmbda = 5` (outside `[0,1]`) the returned
coefficient is 5, not the Beta oracle's value 7. -/
theorem C10_interpolate_branch_selection_witness :
    (interpCore (fun _ _ => 0) ⟨1, 1, fun _ _ => 0⟩ ⟨1, 1, fun _ _ => 0⟩
      1 1 1 5 (fun _ _ _ _ => 7)).lambdas 0 0 = 5 :=
  (C10_interpolate_branch_selection (fun _ _ => 0) ⟨1, 1, fun _ _ => 0⟩
    ⟨1, 1, fun _ _ => 0⟩ 1 1 1 5 (fun _ _ _ _ => 7) 0 0).1 (by norm_num)

/-- Claim C3: in `random` mode, `get_self_matching_matrix` on a batch of `n`
examples returns the `n×n` row-permuted identity: entries are 0/1 and every
row and every column sums to exactly 1. -/
theorem C3_random_matching_permutation_matrix {n d : ℕ} (labels : Fin n → ℚ)
    (reps : Fin n → Fin d → ℚ) (lc l2 : ℚ) (perm : Equiv.Perm (Fin n))
    (solver rounder : (Fin n → Fin n → ℚ) → (Fin n → Fin n → ℚ)) :
    ∃ M : Fin n → Fin n → ℚ,
      get_self_matching_matrix labels reps "random" lc l2 perm solver rounder =
        .ok M ∧
      (∀ i j, M i j = if perm i = j then 1 else 0) ∧
      (∀ i j, M i j = 0 ∨ M i j = 1) ∧
      (∀ i, ∑ j, M i j = 1) ∧
      (∀ j, ∑ i, M i j = 1) := by
  refine ⟨fun i j => if perm i = j then 1 else 0, ?_, fun i j => rfl, ?_, ?_, ?_⟩
  · simp [get_self_matching_matrix]
  · intro i j
    by_cases h : perm i = j <;> simp [h]
  · intro i
    simp
  · intro j
    have h : ∀ i : Fin n,
        (if perm i = j then (1 : ℚ) else 0) = if i = perm.symm j then 1 else 0 := by
      intro i
      simp [Equiv.apply_eq_iff_eq_symm_apply]
    simp only [h]
    simp

/-- Claim C5: in `sinkhorn` mode the cost matrix handed to the solver is
`adjusted_cost = (1 - same_labels) * label_cost + l2_cost * C`, where
`same_labels` is the pairwise label-equality indicator and `C` is the
pairwise squared-Euclidean cost with ten times its maximum added on the
diagonal. -/
theorem C5_sinkhorn_adjusted_cost {n d : ℕ} (labels : Fin n → ℚ)
    (reps : Fin n → Fin d → ℚ) (lc l2 : ℚ) (perm : Equiv.Perm (Fin n))
    (solver rounder : (Fin n → Fin n → ℚ) → (Fin n → Fin n → ℚ)) (i j : Fin n) :
    get_self_matching_matrix labels reps "sinkhorn" lc l2 perm solver rounder =
      .ok (rounder (solver (adjustedCost reps labels lc l2))) ∧
    adjustedCost reps labels lc l2 i j =
      (1 - (if labels i = labels j then (1 : ℚ) else 0)) * lc +
        l2 * (pairwise_l2 reps reps i j +
          (if i = j then 10 * jnpMax (pairwise_l2 reps reps) else 0)) := by
  constructor
  · simp [get_self_matching_matrix]
  · have hform : adjustedCost reps labels lc l2 i j =
        (1 - (if labels i = labels j then (1 : ℚ) else 0)) * lc +
          l2 * (pairwise_l2 reps reps i j +
            (if i = j then (1 : ℚ) else 0) * jnpMax (pairwise_l2 reps reps) * 10) :=
      rfl
    have hd : (if i = j then (1 : ℚ) else 0) * jnpMax (pairwise_l2 reps reps) * 10 =
        if i = j then 10 * jnpMax (pairwise_l2 reps reps) else 0 := by
      split <;> ring
    rw [hform, hd]

/-- Claim C4: in `linear_decay` mode the scheduler value is `initial_value`
minus `step // (total_steps / num_steps)` times the per-segment decrement
`(initial_value - min_value) / (num_steps - 1)` (zero when `num_steps = 1`),
clamped below at the provided `min_value`. -/
theorem C4_linear_decay_formula (step : ℕ) (iv mv ts : ℚ) (ns : ℕ)
    (hns : 1 ≤ ns) (hts : ts ≠ 0) :
    scheduler step ⟨"linear_decay", iv, some mv, none, some ns, ts⟩ =
      .ok (some (max mv (iv - (⌊(step : ℚ) / (ts / (ns : ℚ))⌋ : ℚ) *
        (if 1 < ns then (iv - mv) / ((ns : ℚ) - 1) else 0)))) := by
  have hns0 : ns ≠ 0 := by omega
  have hss : ts / (ns : ℚ) ≠ 0 := by
    exact div_ne_zero hts (by exact_mod_cast hns0)
  by_cases h1 : 1 < ns
  · simp [scheduler, hns0, hss, h1]
  · simp [scheduler, hns0, hss, h1]

/-- Witness for claim C4, the spec's end-to-end example:
`scheduler(5, {mode: linear_decay, initial_value: 10, min_value: 0,
num_steps: 5, total_steps: 10}) = 5`. -/
theorem C4_linear_decay_formula_witness :
    scheduler 5 ⟨"linear_decay", 10, some 0, none, some 5, 10⟩ =
      .ok (some 5) := by
  rw [C4_linear_decay_formula 5 10 0 10 5 (by norm_num) (by norm_num)]
  norm_num

/-- Claim C6: interpolation with fixed coefficient `lmbda = 0` (and matching
shapes) succeeds, returns coefficients that are all 0 (no Beta sampling), and
the mixed tensor equals `reps1` entrywise. -/
theorem C6_interpolate_fixed_lambda_zero (matching : ℕ → ℕ → ℚ)
    (reps1 reps2 : JArr) (nl : ℕ) (a b lm : ℚ) (bs : ℚ → ℚ → ℕ → ℕ → ℚ)
    (l i k : ℕ) (hsh : reps1.n = reps2.n ∧ reps1.d = reps2.d) (hlm : lm = 0) :
    interpolate matching reps1 reps2 nl a b lm bs =
      .ok (interpCore matching reps1 reps2 nl a b lm bs) ∧
    (interpCore matching reps1 reps2 nl a b lm bs).lambdas l i = 0 ∧
    (interpCore matching reps1 reps2 nl a b lm bs).mixed l i k =
      reps1.data i k := by
  subst hlm
  refine ⟨by simp [interpolate, hsh], ?_, ?_⟩
  · simp [interpCore]
  · simp [interpCore]

/-- Witness for claim C6 on concrete 1×1 arrays with `lmbda = 0`. -/
theorem C6_interpolate_fixed_lambda_zero_witness :
    interpolate (fun _ _ => 1) ⟨1, 1, fun _ _ => 3⟩ ⟨1, 1, fun _ _ => 4⟩
        2 1 1 0 (fun _ _ _ _ => 9) =
      .ok (interpCore (fun _ _ => 1) ⟨1, 1, fun _ _ => 3⟩ ⟨1, 1, fun _ _ => 4⟩
        2 1 1 0 (fun _ _ _ _ => 9)) ∧
    (interpCore (fun _ _ => 1) ⟨1, 1, fun _ _ => 3⟩ ⟨1, 1, fun _ _ => 4⟩
        2 1 1 0 (fun _ _ _ _ => 9)).lambdas 0 0 = 0 ∧
    (interpCore (fun _ _ => 1) ⟨1, 1, fun _ _ => 3⟩ ⟨1, 1, fun _ _ => 4⟩
        2 1 1 0 (fun _ _ _ _ => 9)).mixed 0 0 0 = 3 :=
  C6_interpolate_fixed_lambda_zero (fun _ _ => 1) ⟨1, 1, fun _ _ => 3⟩
    ⟨1, 1, fun _ _ => 4⟩ 2 1 1 0 (fun _ _ _ _ => 9) 0 0 0 ⟨rfl, rfl⟩ rfl

/-- Claim C8: every mode string other than `random` and `sinkhorn` makes
`get_self_matching_matrix` fail with a configuration error whose message
names the unsupported mode string. -/
theorem C8_unknown_matching_mode {n d : ℕ} (labels : Fin n → ℚ)
    (reps : Fin n → Fin d → ℚ) (mode : String) (lc l2 : ℚ)
    (perm : Equiv.Perm (Fin n))
    (solver rounder : (Fin n → Fin n → ℚ) → (Fin n → Fin n → ℚ))
    (h1 : mode ≠ "random") (h2 : mode ≠ "sinkhorn") :
    get_self_matching_matrix labels reps mode lc l2 perm solver rounder =
      .error (.configurationError
        (mode ++ " mode for self matching alignment is not supported.")) := by
  simp [get_self_matching_matrix, h1, h2]

/-- Witness for claim C8 at the unsupported mode `"ot"`. -/
theorem C8_unknown_matching_mode_witness :
    get_self_matching_matrix (n := 1) (d := 1) (fun _ => 0) (fun _ _ => 0)
      "ot" 1 1 (Equiv.refl _) id id =
      .error (.configurationError
        ("ot" ++ " mode for self matching alignment is not supported.")) :=
  C8_unknown_matching_mode _ _ "ot" _ _ _ _ _ (by decide) (by decide)
